import Mathlib

/-
  Verification of the capture script `verification/verify_landing.py`.

  The script is a single straight-line procedure `run` that, inside a
  `with sync_playwright()` block, launches a headless Chromium browser,
  opens a page with a fixed viewport, navigates to a file URL built from
  the current working directory, takes a full-page screenshot, waits a
  fixed 2000 ms, takes a clipped hero screenshot, and closes the browser.

  We embed the procedure as a function from an environment (the facts the
  outside world decides: the current working directory, whether the
  browser launches, which files exist, which output writes succeed, and
  the rendered document as a function of time since load) to a run
  result: an outcome, an ordered event trace, the list of files read and
  the list of files written.  Each branch of the embedding mirrors the
  corresponding exit path of the Python code: an operation that raises
  ends the trace at that point, and the implicit teardown of the
  `with` block is appended on every path.
-/

namespace VerifyLanding

/-- A raster image: dimensions plus pixel bytes. -/
structure Image where
  width : Nat
  height : Nat
  bytes : List Nat
deriving DecidableEq, Repr

/-- A clip rectangle, as passed to `page.screenshot(clip=...)`. -/
structure Clip where
  x : Nat
  y : Nat
  width : Nat
  height : Nat
deriving DecidableEq, Repr

/-- Viewport width from line 8 of the source: `viewport={'width': 1280, ...}`. -/
def viewportWidth : Nat := 1280

/-- Viewport height from line 8 of the source: `viewport={..., 'height': 2000}`. -/
def viewportHeight : Nat := 2000

/-- The hero clip rectangle from line 19 of the source:
`clip={'x':0, 'y':0, 'width':1200, 'height':800}`. -/
def heroClip : Clip := { x := 0, y := 0, width := 1200, height := 800 }

/-- The fixed settle delay from line 18 of the source: `page.wait_for_timeout(2000)`. -/
def settleDelayMs : Nat := 2000

/-- Output path of the full-page capture, line 15 of the source. -/
def fullPagePath : String := "verification/landing_page_full.png"

/-- Output path of the hero capture, line 19 of the source. -/
def heroPath : String := "verification/landing_page_hero.png"

/-- The local filesystem path of the capture target, built on line 12 of the
source from `os.getcwd()` and the literal suffix `/landing/index.html`. -/
def targetPath (cwd : String) : String := cwd ++ "/landing/index.html"

/-- The navigated URL, line 12 of the source: `f'file:\x7bcwd\x7d/landing/index.html'`. -/
def targetUrl (cwd : String) : String := "file://" ++ targetPath cwd

/-- Observable steps of the run, in the order the source performs them. -/
inductive Event where
  | launch
  | newPage (w h : Nat)
  | navigate (url : String)
  | screenshotFull (path : String)
  | waitMs (ms : Nat)
  | screenshotClip (path : String) (x y w h : Nat)
  | browserClose
  | playwrightStop
deriving DecidableEq, Repr

/-- Failures the run can raise, one per fallible operation of the source. -/
inductive RunError where
  | launchFailed
  | navigationFailed
  | screenshotFailed
deriving DecidableEq, Repr

/-- Environment: everything the outside world decides about one run.
`render t` is the fully rendered document image `t` milliseconds after the
load completed (the document may animate, so it is a function of time). -/
structure Env where
  cwd : String
  launchOk : Bool
  fileExists : String → Bool
  writeOk : String → Bool
  render : Nat → Image

/-- Modelled from the spec: the external engine's full-page capture
("capture a screenshot of the full page ... to a path") returns the full
rendered document image at the current time. -/
def fullPageShot (render : Nat → Image) (t : Nat) : Image := render t

/-- Row-major crop of the pixel bytes of an image to a clip rectangle. -/
def cropBytes (img : Image) (c : Clip) : List Nat :=
  List.flatten ((List.range c.height).map (fun r =>
    (img.bytes.drop ((c.y + r) * img.width + c.x)).take c.width))

/-- Modelled from the spec: the external engine's clipped capture
("capture a screenshot ... of a given rectangle to a path") yields an
image whose dimensions exactly equal the clip rectangle's width and
height, with pixels cropped from the rendered document at the current
time. -/
def clipShot (render : Nat → Image) (t : Nat) (c : Clip) : Image :=
  { width := c.width, height := c.height, bytes := cropBytes (render t) c }

/-- The body of `run` (lines 7 to 21 of the source): outcome, event trace,
paths read, and writes performed, for each exit path.  A failing
operation ends the trace where the exception is raised; writes record the
files actually produced before that point. -/
def runBody (env : Env) :
    Except RunError Unit × List Event × List String × List (String × Image) :=
  if env.launchOk then
    let url := targetUrl env.cwd
    if env.fileExists (targetPath env.cwd) then
      let full := fullPageShot env.render 0
      if env.writeOk fullPagePath then
        let hero := clipShot env.render settleDelayMs heroClip
        if env.writeOk heroPath then
          (Except.ok (),
           [Event.launch, Event.newPage viewportWidth viewportHeight,
            Event.navigate url, Event.screenshotFull fullPagePath,
            Event.waitMs settleDelayMs,
            Event.screenshotClip heroPath heroClip.x heroClip.y
              heroClip.width heroClip.height,
            Event.browserClose],
           [targetPath env.cwd],
           [(fullPagePath, full), (heroPath, hero)])
        else
          (Except.error RunError.screenshotFailed,
           [Event.launch, Event.newPage viewportWidth viewportHeight,
            Event.navigate url, Event.screenshotFull fullPagePath,
            Event.waitMs settleDelayMs,
            Event.screenshotClip heroPath heroClip.x heroClip.y
              heroClip.width heroClip.height],
           [targetPath env.cwd],
           [(fullPagePath, full)])
      else
        (Except.error RunError.screenshotFailed,
         [Event.launch, Event.newPage viewportWidth viewportHeight,
          Event.navigate url, Event.screenshotFull fullPagePath],
         [targetPath env.cwd],
         [])
    else
      (Except.error RunError.navigationFailed,
       [Event.launch, Event.newPage viewportWidth viewportHeight,
        Event.navigate url],
       [],
       [])
  else
    (Except.error RunError.launchFailed, [], [], [])

/-- Result of one run: the outcome, the ordered trace of observable
events, the paths read and the image files written. -/
structure RunResult where
  outcome : Except RunError Unit
  events : List Event
  reads : List String
  writes : List (String × Image)

/-- The whole of `run`: the body wrapped in `with sync_playwright() as p`,
whose teardown (`playwrightStop`) executes on every exit path, normal or
exceptional. -/
def run (env : Env) : RunResult :=
  { outcome := (runBody env).1,
    events := (runBody env).2.1 ++ [Event.playwrightStop],
    reads := (runBody env).2.2.1,
    writes := (runBody env).2.2.2 }

/-- Modelled from the spec: the browser is a resource scoped to the
playwright session — both the explicit `browser.close()` call and the
teardown of the `with sync_playwright()` block (which stops the driver
that owns every browser it launched) release it. -/
def releasesBrowser : Event → Bool
  | Event.browserClose => true
  | Event.playwrightStop => true
  | _ => false

/-- Event is a capture (screenshot) request. -/
def captureEvent : Event → Bool
  | Event.screenshotFull _ => true
  | Event.screenshotClip _ _ _ _ _ => true
  | _ => false

/-- Event is a fixed-duration wait. -/
def isWait : Event → Bool
  | Event.waitMs _ => true
  | _ => false

/-- Every capture in the trace occurs after some fixed-duration wait:
no capture event appears before the first wait event. -/
def waitPrecedesAllCaptures (t : List Event) : Bool :=
  (t.takeWhile (fun e => !isWait e)).all (fun e => !captureEvent e)

/-- The URLs navigated to during a run, in order. -/
def navUrls (r : RunResult) : List String :=
  r.events.filterMap (fun e =>
    match e with
    | Event.navigate u => some u
    | _ => none)

/-- The viewport sizes established during a run, in order: a page opened
with a viewport contributes its pair, and no event changes a viewport. -/
def viewportSettings (r : RunResult) : List (Nat × Nat) :=
  r.events.filterMap (fun e =>
    match e with
    | Event.newPage w h => some (w, h)
    | _ => none)

/-- The image a run left at path `p`, if any (last write wins). -/
def writtenAt (r : RunResult) (p : String) : Option Image :=
  ((r.writes.filter (fun w => w.1 == p)).reverse.head?).map Prod.snd

/-- Apply a run's writes to a filesystem state: each write overwrites
whatever was previously at its path. -/
def applyWrites (fs : String → Option Image) (ws : List (String × Image)) :
    String → Option Image :=
  ws.foldl (fun acc w => fun p => if p = w.1 then some w.2 else acc p) fs

/-- Whether the outcome is a normal completion. -/
def isOk : Except RunError Unit → Bool
  | Except.ok _ => true
  | Except.error _ => false

/-- Modelled from the `__main__` guard on lines 23 and 24 of the source:
the process calls `run()` and exits 0 on normal completion; an uncaught
exception makes the interpreter exit with code 1. -/
def mainExitCode (env : Env) : Nat :=
  match (run env).outcome with
  | Except.ok _ => 0
  | Except.error _ => 1

/-- A concrete environment in which every operation succeeds. -/
def envW : Env :=
  { cwd := "/repo",
    launchOk := true,
    fileExists := fun _ => true,
    writeOk := fun _ => true,
    render := fun _ => { width := 1280, height := 2600, bytes := List.range 8 } }

/-- A concrete all-success environment started from a different working
directory. -/
def envA : Env := { envW with cwd := "/alpha" }

/-- Another concrete all-success environment, from a third working
directory. -/
def envB : Env := { envW with cwd := "/beta" }

/-- A concrete environment in which the target document does not exist,
so navigation fails. -/
def envNav : Env := { envW with fileExists := fun _ => false }

/-- The empty filesystem state. -/
def emptyFS : String → Option Image := fun _ => none

/-- On the all-operations-succeed path the run is the full trace of the
source, ending in the explicit close and the block teardown. -/
theorem run_eq_success (env : Env) (hl : env.launchOk = true)
    (hf : env.fileExists (targetPath env.cwd) = true)
    (hw1 : env.writeOk fullPagePath = true)
    (hw2 : env.writeOk heroPath = true) :
    run env =
      { outcome := Except.ok (),
        events := [Event.launch, Event.newPage viewportWidth viewportHeight,
          Event.navigate (targetUrl env.cwd), Event.screenshotFull fullPagePath,
          Event.waitMs settleDelayMs,
          Event.screenshotClip heroPath heroClip.x heroClip.y
            heroClip.width heroClip.height,
          Event.browserClose, Event.playwrightStop],
        reads := [targetPath env.cwd],
        writes := [(fullPagePath, fullPageShot env.render 0),
          (heroPath, clipShot env.render settleDelayMs heroClip)] } := by
  simp [run, runBody, hl, hf, hw1, hw2]

/-- When the browser fails to launch, the run raises at line 7 with an
empty trace apart from the block teardown. -/
theorem run_eq_launch_fail (env : Env) (hl : env.launchOk = false) :
    run env =
      { outcome := Except.error RunError.launchFailed,
        events := [Event.playwrightStop],
        reads := [], writes := [] } := by
  simp [run, runBody, hl]

/-- When the target document does not exist, the run raises at the
navigation on line 12: nothing is read or written afterwards. -/
theorem run_eq_nav_fail (env : Env) (hl : env.launchOk = true)
    (hf : env.fileExists (targetPath env.cwd) = false) :
    run env =
      { outcome := Except.error RunError.navigationFailed,
        events := [Event.launch, Event.newPage viewportWidth viewportHeight,
          Event.navigate (targetUrl env.cwd), Event.playwrightStop],
        reads := [], writes := [] } := by
  simp [run, runBody, hl, hf]

/-- When the full-page screenshot write fails, the run raises at line 15:
no output file is produced. -/
theorem run_eq_full_write_fail (env : Env) (hl : env.launchOk = true)
    (hf : env.fileExists (targetPath env.cwd) = true)
    (hw1 : env.writeOk fullPagePath = false) :
    run env =
      { outcome := Except.error RunError.screenshotFailed,
        events := [Event.launch, Event.newPage viewportWidth viewportHeight,
          Event.navigate (targetUrl env.cwd), Event.screenshotFull fullPagePath,
          Event.playwrightStop],
        reads := [targetPath env.cwd], writes := [] } := by
  simp [run, runBody, hl, hf, hw1]

/-- When the hero screenshot write fails, the run raises at line 19: only
the full-page output was produced. -/
theorem run_eq_hero_write_fail (env : Env) (hl : env.launchOk = true)
    (hf : env.fileExists (targetPath env.cwd) = true)
    (hw1 : env.writeOk fullPagePath = true)
    (hw2 : env.writeOk heroPath = false) :
    run env =
      { outcome := Except.error RunError.screenshotFailed,
        events := [Event.launch, Event.newPage viewportWidth viewportHeight,
          Event.navigate (targetUrl env.cwd), Event.screenshotFull fullPagePath,
          Event.waitMs settleDelayMs,
          Event.screenshotClip heroPath heroClip.x heroClip.y
            heroClip.width heroClip.height,
          Event.playwrightStop],
        reads := [targetPath env.cwd],
        writes := [(fullPagePath, fullPageShot env.render 0)] } := by
  simp [run, runBody, hl, hf, hw1, hw2]

/-- The run completes normally exactly when every fallible operation
(launch, navigation, both screenshot writes) succeeds. -/
theorem run_ok_iff (env : Env) :
    (run env).outcome = Except.ok () ↔
      env.launchOk = true ∧ env.fileExists (targetPath env.cwd) = true ∧
      env.writeOk fullPagePath = true ∧ env.writeOk heroPath = true := by
  cases hl : env.launchOk <;>
    cases hf : env.fileExists (targetPath env.cwd) <;>
      cases hw1 : env.writeOk fullPagePath <;>
        cases hw2 : env.writeOk heroPath <;>
          simp [run, runBody, hl, hf, hw1, hw2]

/-- C1: for every run whose browser acquisition succeeds, the browser
resource is released on every exit path — by the explicit close on the
success path, and by the teardown of the playwright block on every
failure path (navigation failure, either screenshot failure). -/
theorem browser_release_on_every_exit_path (env : Env)
    (h : env.launchOk = true) :
    (run env).events.any releasesBrowser = true := by
  cases hf : env.fileExists (targetPath env.cwd) <;>
    cases hw1 : env.writeOk fullPagePath <;>
      cases hw2 : env.writeOk heroPath <;>
        simp [run, runBody, h, hf, hw1, hw2, releasesBrowser]

/-- Witness for C1 on a failure path: in the concrete environment whose
target file is missing, the launch succeeded and a releasing event still
occurs. -/
theorem browser_release_witness :
    envNav.launchOk = true ∧ (run envNav).events.any releasesBrowser = true :=
  ⟨rfl, browser_release_on_every_exit_path envNav rfl⟩

/-- C2 counterexample: in a concrete all-success run, the run completes
normally yet a capture (the full-page screenshot of line 15) occurs
before the fixed-duration wait (line 18), so the wait does not precede
every capture. -/
theorem full_capture_precedes_wait_cex :
    isOk (run envW).outcome = true ∧
    waitPrecedesAllCaptures (run envW).events = false := by decide

/-- C2 (amended): a successful run executes exactly, and in this order:
launch the browser, open a page with the configured viewport, navigate
to the document location, take the full-page capture, suspend for the
fixed settle delay, take the hero-region capture, close the browser, and
tear down the playwright block — the fixed wait precedes the hero
capture but follows the full-page capture. -/
theorem run_event_order (env : Env) (h : (run env).outcome = Except.ok ()) :
    (run env).events =
      [Event.launch, Event.newPage viewportWidth viewportHeight,
       Event.navigate (targetUrl env.cwd), Event.screenshotFull fullPagePath,
       Event.waitMs settleDelayMs,
       Event.screenshotClip heroPath heroClip.x heroClip.y
         heroClip.width heroClip.height,
       Event.browserClose, Event.playwrightStop] := by
  obtain ⟨hl, hf, hw1, hw2⟩ := (run_ok_iff env).mp h
  rw [run_eq_success env hl hf hw1 hw2]

/-- Witness for C2 (amended) at the concrete all-success environment. -/
theorem run_event_order_witness :
    (run envW).outcome = Except.ok () ∧
    (run envW).events =
      [Event.launch, Event.newPage viewportWidth viewportHeight,
       Event.navigate (targetUrl envW.cwd), Event.screenshotFull fullPagePath,
       Event.waitMs settleDelayMs,
       Event.screenshotClip heroPath heroClip.x heroClip.y
         heroClip.width heroClip.height,
       Event.browserClose, Event.playwrightStop] :=
  ⟨rfl, run_event_order envW rfl⟩

/-- C3: when the target document path does not exist, navigation fails,
the run aborts with no file written, the navigation to the target URL was
the point of failure, and the browser resource is still released. -/
theorem missing_target_aborts_before_writes (env : Env)
    (hl : env.launchOk = true)
    (hf : env.fileExists (targetPath env.cwd) = false) :
    (run env).outcome = Except.error RunError.navigationFailed ∧
    (run env).writes = [] ∧
    Event.navigate (targetUrl env.cwd) ∈ (run env).events ∧
    (run env).events.any releasesBrowser = true := by
  rw [run_eq_nav_fail env hl hf]
  simp [releasesBrowser]

/-- Witness for C3 at the concrete missing-target environment. -/
theorem missing_target_witness :
    envNav.launchOk = true ∧
    envNav.fileExists (targetPath envNav.cwd) = false ∧
    ((run envNav).outcome = Except.error RunError.navigationFailed ∧
     (run envNav).writes = [] ∧
     Event.navigate (targetUrl envNav.cwd) ∈ (run envNav).events ∧
     (run envNav).events.any releasesBrowser = true) :=
  ⟨rfl, rfl, missing_target_aborts_before_writes envNav rfl rfl⟩

/-- C4 counterexample: two successful runs started from different working
directories navigate to different URLs, so the navigated URL is not a
fixed constant independent of process state. -/
theorem navigated_url_varies_with_cwd_cex :
    isOk (run envA).outcome = true ∧ isOk (run envB).outcome = true ∧
    navUrls (run envA) ≠ navUrls (run envB) := by decide

/-- C4 (amended): whenever the browser launches, the run navigates to
exactly one URL, built by concatenating the literal scheme prefix, the
current working directory read at run time, and the literal path suffix;
it is therefore fixed given the working directory, but depends on it. -/
theorem navigated_url_shape (env : Env) (hl : env.launchOk = true) :
    navUrls (run env) = [targetUrl env.cwd] ∧
    targetUrl env.cwd = "file://" ++ (env.cwd ++ "/landing/index.html") := by
  refine ⟨?_, rfl⟩
  cases hf : env.fileExists (targetPath env.cwd) <;>
    cases hw1 : env.writeOk fullPagePath <;>
      cases hw2 : env.writeOk heroPath <;>
        simp [run, runBody, hl, hf, hw1, hw2, navUrls]

/-- Witness for C4 (amended) at the concrete all-success environment. -/
theorem navigated_url_shape_witness :
    envW.launchOk = true ∧
    (navUrls (run envW) = [targetUrl envW.cwd] ∧
     targetUrl envW.cwd = "file://" ++ (envW.cwd ++ "/landing/index.html")) :=
  ⟨rfl, navigated_url_shape envW rfl⟩

/-- C5: every successful run requests the hero capture with exactly the
clip rectangle x=0, y=0, width=1200, height=800, and the hero image it
writes has width 1200 and height 800. -/
theorem hero_clip_request_and_dims (env : Env)
    (h : (run env).outcome = Except.ok ()) :
    Event.screenshotClip heroPath 0 0 1200 800 ∈ (run env).events ∧
    writtenAt (run env) heroPath =
      some (clipShot env.render settleDelayMs heroClip) ∧
    (clipShot env.render settleDelayMs heroClip).width = 1200 ∧
    (clipShot env.render settleDelayMs heroClip).height = 800 := by
  obtain ⟨hl, hf, hw1, hw2⟩ := (run_ok_iff env).mp h
  rw [run_eq_success env hl hf hw1 hw2]
  refine ⟨?_, rfl, rfl, rfl⟩
  simp [heroClip]

/-- Witness for C5 at the concrete all-success environment. -/
theorem hero_clip_request_and_dims_witness :
    (run envW).outcome = Except.ok () ∧
    (Event.screenshotClip heroPath 0 0 1200 800 ∈ (run envW).events ∧
     writtenAt (run envW) heroPath =
       some (clipShot envW.render settleDelayMs heroClip) ∧
     (clipShot envW.render settleDelayMs heroClip).width = 1200 ∧
     (clipShot envW.render settleDelayMs heroClip).height = 800) :=
  ⟨rfl, hero_clip_request_and_dims envW rfl⟩

/-- C6: a successful run reads exactly the target document and writes
exactly two files, the full-page capture then the hero capture, each at
its fixed output path; applied to any pre-existing filesystem state, the
writes leave the captured images at those paths, overwriting whatever was
there. -/
theorem successful_run_filesystem_effects (env : Env)
    (fs : String → Option Image) (h : (run env).outcome = Except.ok ()) :
    (run env).reads = [targetPath env.cwd] ∧
    (run env).writes.map Prod.fst = [fullPagePath, heroPath] ∧
    applyWrites fs (run env).writes fullPagePath =
      some (fullPageShot env.render 0) ∧
    applyWrites fs (run env).writes heroPath =
      some (clipShot env.render settleDelayMs heroClip) := by
  obtain ⟨hl, hf, hw1, hw2⟩ := (run_ok_iff env).mp h
  rw [run_eq_success env hl hf hw1 hw2]
  exact ⟨rfl, rfl, rfl, rfl⟩

/-- Witness for C6 at the concrete all-success environment over the empty
filesystem. -/
theorem successful_run_filesystem_effects_witness :
    (run envW).outcome = Except.ok () ∧
    ((run envW).reads = [targetPath envW.cwd] ∧
     (run envW).writes.map Prod.fst = [fullPagePath, heroPath] ∧
     applyWrites emptyFS (run envW).writes fullPagePath =
       some (fullPageShot envW.render 0) ∧
     applyWrites emptyFS (run envW).writes heroPath =
       some (clipShot envW.render settleDelayMs heroClip)) :=
  ⟨rfl, successful_run_filesystem_effects envW emptyFS rfl⟩

/-- C7: two successful runs over the same deterministic rendered document
write byte-for-byte equal full-page captures, namely the rendered
document image at load time — the output is a function of the rendered
document and the fixed configuration. -/
theorem full_capture_deterministic (e1 e2 : Env)
    (h1 : (run e1).outcome = Except.ok ())
    (h2 : (run e2).outcome = Except.ok ())
    (hr : e1.render = e2.render) :
    writtenAt (run e1) fullPagePath = writtenAt (run e2) fullPagePath ∧
    writtenAt (run e1) fullPagePath = some (fullPageShot e1.render 0) := by
  obtain ⟨hl1, hf1, hw11, hw12⟩ := (run_ok_iff e1).mp h1
  obtain ⟨hl2, hf2, hw21, hw22⟩ := (run_ok_iff e2).mp h2
  rw [run_eq_success e1 hl1 hf1 hw11 hw12,
    run_eq_success e2 hl2 hf2 hw21 hw22, hr]
  exact ⟨rfl, rfl⟩

/-- Witness for C7: the same all-success environment run twice. -/
theorem full_capture_deterministic_witness :
    (run envW).outcome = Except.ok () ∧
    (writtenAt (run envW) fullPagePath = writtenAt (run envW) fullPagePath ∧
     writtenAt (run envW) fullPagePath = some (fullPageShot envW.render 0)) :=
  ⟨rfl, full_capture_deterministic envW envW rfl rfl rfl⟩

/-- C8: the process exit code is zero exactly when every operation of the
run (launch, navigation, both screenshot writes) succeeds, and is
otherwise the interpreter's unhandled-exception code 1, hence non-zero. -/
theorem exit_code_zero_iff_no_failure (env : Env) :
    ((mainExitCode env = 0) ↔
      (env.launchOk = true ∧ env.fileExists (targetPath env.cwd) = true ∧
       env.writeOk fullPagePath = true ∧ env.writeOk heroPath = true)) ∧
    (mainExitCode env = 0 ∨ mainExitCode env = 1) := by
  cases hl : env.launchOk <;>
    cases hf : env.fileExists (targetPath env.cwd) <;>
      cases hw1 : env.writeOk fullPagePath <;>
        cases hw2 : env.writeOk heroPath <;>
          simp [mainExitCode, run, runBody, hl, hf, hw1, hw2]

/-- C9: whenever the browser launches, exactly one viewport is
established during the run — the fixed 1280 by 2000 pair set when the
page is opened — and no later event changes it. -/
theorem viewport_fixed_for_run (env : Env) (hl : env.launchOk = true) :
    viewportSettings (run env) = [(viewportWidth, viewportHeight)] ∧
    viewportWidth = 1280 ∧ viewportHeight = 2000 := by
  refine ⟨?_, rfl, rfl⟩
  cases hf : env.fileExists (targetPath env.cwd) <;>
    cases hw1 : env.writeOk fullPagePath <;>
      cases hw2 : env.writeOk heroPath <;>
        simp [run, runBody, hl, hf, hw1, hw2, viewportSettings]

/-- Witness for C9 at the concrete all-success environment. -/
theorem viewport_fixed_for_run_witness :
    envW.launchOk = true ∧
    (viewportSettings (run envW) = [(viewportWidth, viewportHeight)] ∧
     viewportWidth = 1280 ∧ viewportHeight = 2000) :=
  ⟨rfl, viewport_fixed_for_run envW rfl⟩

/-- C10: every clipped capture any run ever requests lies entirely within
the configured viewport: its origin plus extent does not exceed the
viewport width and height. -/
theorem hero_clip_within_viewport (env : Env) (p : String) (x y w h : Nat)
    (hmem : Event.screenshotClip p x y w h ∈ (run env).events) :
    x + w ≤ viewportWidth ∧ y + h ≤ viewportHeight := by
  cases hl : env.launchOk <;>
    cases hf : env.fileExists (targetPath env.cwd) <;>
      cases hw1 : env.writeOk fullPagePath <;>
        cases hw2 : env.writeOk heroPath <;>
          simp [run, runBody, hl, hf, hw1, hw2, heroClip] at hmem <;>
          obtain ⟨hp, hx, hy, hwc, hhc⟩ := hmem <;>
          subst hx <;> subst hy <;> subst hwc <;> subst hhc <;>
          exact ⟨by decide, by decide⟩

/-- Witness for C10: the hero clip request of the concrete all-success
run is within the viewport. -/
theorem hero_clip_within_viewport_witness :
    Event.screenshotClip heroPath 0 0 1200 800 ∈ (run envW).events ∧
    (0 + 1200 ≤ viewportWidth ∧ 0 + 800 ≤ viewportHeight) :=
  ⟨by decide, hero_clip_within_viewport envW heroPath 0 0 1200 800 (by decide)⟩

end VerifyLanding
